import Mathlib

/-!
Shallow embedding of the request-validation-and-mutation pipeline of an
employee-management GraphQL backend (graphql/resolvers.js together with
models/Employee.js).  Resolvers are modelled as pure functions over an
explicit store state (a list of documents); the store's duplicate-key
backstop for racy writes is injected as an explicit write-outcome
parameter; external libraries (bcrypt, jsonwebtoken, cloudinary) are
modelled as function parameters or opaque records.
-/

/-- Error codes placed in `extensions.code` of a GraphQLError by the
resolvers: BAD_USER_INPUT, UNAUTHENTICATED, NOT_FOUND, INTERNAL_SERVER_ERROR. -/
inductive ErrCode where
  | badUserInput
  | unauthenticated
  | notFound
  | internalServerError
deriving DecidableEq

/-- A GraphQLError as thrown by the resolvers: primary message, code, and the
optional structured detail list (validation violation messages, or the
underlying message of a wrapped failure). -/
structure GError where
  message : String
  code : ErrCode
  details : List String
deriving DecidableEq

/-- A MongoDB server error as surfaced by Mongoose on a write: a numeric
`code` (11000 for duplicate key) and the `keyPattern` field names. -/
structure MongoError where
  code : Nat
  keyPattern : List String
deriving DecidableEq

/-- A JavaScript exception reaching a catch block in the resolvers: either a
GraphQLError thrown by the resolver code itself, or a raw store error. -/
inductive JsError where
  | gql (e : GError)
  | store (e : MongoError)
deriving DecidableEq

/-- handleDuplicateEmailError from resolvers.js: if the caught error has
`code === 11000` and a `keyPattern` containing `email`, re-throw as the
GraphQLError "Email already exists." with BAD_USER_INPUT; otherwise re-throw
the error unchanged.  A GraphQLError has no top-level numeric `code`
property, so it always falls to the re-throw branch. -/
def handleDuplicateEmailError : JsError → JsError
  | .store e =>
      if e.code = 11000 ∧ "email" ∈ e.keyPattern then
        .gql ⟨"Email already exists.", .badUserInput, []⟩
      else .store e
  | .gql e => .gql e

/-- JavaScript truthiness of an optional string argument: `undefined`, `null`
and the empty string are falsy; every other string is truthy. -/
def optTruthy : Option String → Bool
  | none => false
  | some s => s ≠ ""

/-- Models JavaScript String.prototype.toLowerCase (email.toLowerCase() in
the resolvers) and Mongoose's `lowercase: true` normalization, restricted to
ASCII case mapping.  Defined over the character list so that it reduces in
the kernel. -/
def strLower (s : String) : String :=
  ⟨s.data.map Char.toLower⟩

/-- Models the external validator.js `isEmail` check used by
express-validator, simplified: exactly one `@`, non-empty local part,
non-empty domain containing a dot, no spaces.  No claim depends on the exact
boundary of email syntax. -/
def isEmailB (s : String) : Bool :=
  let cs := s.toList
  cs.count '@' = 1 &&
  (let lp := cs.takeWhile (· ≠ '@')
   let dom := (cs.dropWhile (· ≠ '@')).drop 1
   !lp.isEmpty && !dom.isEmpty && dom.contains '.' && !cs.contains ' ')

/-- Models the external validator.js `isISO8601` check, simplified to the
YYYY-MM-DD shape named in the error message.  No claim depends on the exact
boundary of date syntax. -/
def isISO8601B (s : String) : Bool :=
  match s.toList with
  | [a, b, c, d, h1, e, f, h2, g, i] =>
      a.isDigit && b.isDigit && c.isDigit && d.isDigit && h1 = '-' &&
      e.isDigit && f.isDigit && h2 = '-' && g.isDigit && i.isDigit
  | _ => false

/-- Models mongoose.Types.ObjectId.isValid on a string argument: true iff the
string is 24 hexadecimal characters, or is exactly 12 characters long. -/
def isValidObjectId (s : String) : Bool :=
  (s.length = 24 && s.toList.all fun c =>
      c.isDigit || ('a' ≤ c && c ≤ 'f') || ('A' ≤ c && c ≤ 'F'))
  || s.length = 12

/-- A regular-expression line terminator: `.` does not match these (the
resolvers pass no `s` flag). -/
def isLineTerm (c : Char) : Bool :=
  c.toNat = 10 || c.toNat = 13 || c.toNat = 8232 || c.toNat = 8233

/-- A regular-expression metacharacter other than `.` — quantifiers,
classes, groups, anchors, alternation, escapes, and braces.  Patterns
containing these are outside the fragment modelled here. -/
def isRegexMeta (c : Char) : Bool :=
  c = '\\' || c = '^' || c = '$' || c = '*' || c = '+' || c = '?' ||
  c = '(' || c = ')' || c = '[' || c = ']' || c = '|' ||
  c.toNat = 123 || c.toNat = 125

/-- The fragment of regular-expression patterns on which `regexIMatch` is an
exact model of the program: every character is ASCII and is either an
ordinary literal or the `.` wildcard.  Such patterns are always
syntactically valid (no SyntaxError path), and on them the legacy
(non-Unicode) `i`-flag canonicalization of `new RegExp(pattern, 'i')` and
the store's own regex engine coincide with ASCII case folding. -/
def modelledPattern (s : String) : Bool :=
  s.toList.all fun c => c.toNat < 128 && !isRegexMeta c

/-- One position of a regular-expression match, for patterns in
`modelledPattern`: a literal character matches itself case-insensitively
(the `i` flag, ASCII folding) and `.` matches any character except a line
terminator. -/
def patMatchAt : List Char → List Char → Bool
  | [], _ => true
  | _ :: _, [] => false
  | p :: ps, c :: cs =>
      ((p = '.' && !isLineTerm c) || p.toLower = c.toLower) && patMatchAt ps cs

/-- Models an unanchored case-insensitive regular-expression test, as
produced by `new RegExp(pattern, 'i')` and applied by the store to a string
field: the pattern must match starting at some position of the string.
Exact for patterns satisfying `modelledPattern`; patterns with further
metacharacters, or invalid ones (on which the RegExp constructor throws),
are not modelled, and every theorem quantifying over patterns restricts
itself to the modelled fragment. -/
def regexIMatch (pattern s : String) : Bool :=
  (List.range (s.toList.length + 1)).any fun i =>
    patMatchAt pattern.toList (s.toList.drop i)

/-- The spec's matching relation for search filters, stated as the spec words
it: the filter occurs case-insensitively as a substring of the field.  Kept
separate from `regexIMatch` (the code's behaviour) so the two can be
compared. -/
def specSubstrCI (needle hay : String) : Bool :=
  (List.range (hay.toList.length + 1)).any fun i =>
    List.isPrefixOf (strLower needle).toList ((strLower hay).toList.drop i)

/-- A stored User document (models/User.js is summarized by the README:
username, unique lower-cased email, bcrypt hash stored in `password`). -/
structure UserDoc where
  id : String
  username : String
  email : String
  password : String
deriving DecidableEq

/-- A stored Employee document (models/Employee.js), with the store-managed
creation timestamp used for sorting. -/
structure EmployeeDoc where
  id : String
  first_name : String
  last_name : String
  email : String
  gender : Option String
  designation : String
  salary : ℚ
  date_of_joining : String
  department : String
  employee_photo : Option String
  created_at : Nat
deriving DecidableEq

/-- The signed bearer token produced by jwt.sign in login: the three embedded
claims, the signing secret, and the fixed 1-day expiry. -/
structure SignedToken where
  userId : String
  username : String
  email : String
  secret : String
  expiresIn : String
deriving DecidableEq

/-- Modelled from the spec: the Account value exposed to callers through the
schema/type-declaration layer (typeDefs.js, absent from the sources) —
"id (opaque), username, email"; "passwordHash: derived, never exposed."
The view deliberately has no password field. -/
structure AccountView where
  id : String
  username : String
  email : String
deriving DecidableEq

/-- Projection of a stored User document to the spec's exposed Account. -/
def accountView (u : UserDoc) : AccountView :=
  ⟨u.id, u.username, u.email⟩

/-- runValidation from resolvers.js, applied to a per-operation violation
list: no violations means the input is valid; otherwise a GraphQLError is
thrown carrying the first violation message, BAD_USER_INPUT, and the full
violation list as details. -/
def validationError : List String → Option GError
  | [] => none
  | m :: rest => some ⟨m, .badUserInput, m :: rest⟩

/-- Violation list of login's checkSchema: password required, length at
least 6. -/
def loginViolations (password : String) : List String :=
  (if password = "" then ["Password is required."] else []) ++
  (if password.length < 6 then ["Password must be at least 6 characters."] else [])

/-- Violation list of signup's checkSchema, in schema-field order. -/
def signupViolations (username email password : String) : List String :=
  (if username = "" then ["Username is required."] else []) ++
  (if username.length < 3 then ["Username must be at least 3 characters."] else []) ++
  (if email = "" then ["Email is required."] else []) ++
  (if !isEmailB email then ["Email format is invalid."] else []) ++
  (if password = "" then ["Password is required."] else []) ++
  (if password.length < 6 then ["Password must be at least 6 characters."] else [])

/-- Arguments of the addEmployee mutation (typed as the schema delivers
them; `employee_photo` is optional, so its isString rule always passes). -/
structure AddEmployeeArgs where
  first_name : String
  last_name : String
  email : String
  gender : Option String
  designation : String
  salary : ℚ
  date_of_joining : String
  department : String
  employee_photo : Option String
deriving DecidableEq

/-- Violation list of addEmployee's checkSchema, in schema-field order. -/
def addEmployeeViolations (a : AddEmployeeArgs) : List String :=
  (if a.first_name = "" then ["First name is required."] else []) ++
  (if a.last_name = "" then ["Last name is required."] else []) ++
  (if a.email = "" then ["Email is required."] else []) ++
  (if !isEmailB a.email then ["Email format is invalid."] else []) ++
  (if a.designation = "" then ["Designation is required."] else []) ++
  (if !(1000 ≤ a.salary) then ["Salary must be at least 1000."] else []) ++
  (if a.date_of_joining = "" then ["Date of joining is required."] else []) ++
  (if !isISO8601B a.date_of_joining then
    ["date_of_joining must be a valid date (YYYY-MM-DD)."] else []) ++
  (if a.department = "" then ["Department is required."] else [])

/-- Arguments of the updateEmployee mutation: the target id plus any subset
of the employee fields. -/
structure UpdateEmployeeArgs where
  eid : String
  first_name : Option String
  last_name : Option String
  email : Option String
  gender : Option String
  designation : Option String
  salary : Option ℚ
  date_of_joining : Option String
  department : Option String
  employee_photo : Option String
deriving DecidableEq

/-- Violation list of updateEmployee's checkSchema: eid required; email and
salary validated only when supplied. -/
def updateEmployeeViolations (u : UpdateEmployeeArgs) : List String :=
  (if u.eid = "" then ["Employee ID is required."] else []) ++
  (match u.email with
   | none => []
   | some e => if !isEmailB e then ["Email format is invalid."] else []) ++
  (match u.salary with
   | none => []
   | some s => if !(1000 ≤ s) then ["Salary must be at least 1000."] else [])

/-- uploadEmployeePhoto from resolvers.js.  The external cloudinary client
is a parameter returning either the secure URL or a raw failure message; a
falsy payload short-circuits to null before any external call; any client
failure is caught and re-thrown as a GraphQLError with
INTERNAL_SERVER_ERROR and the underlying message as details. -/
def uploadEmployeePhoto (uploader : String → Except String String) :
    Option String → Except JsError (Option String)
  | none => .ok none
  | some p =>
      if p = "" then .ok none
      else
        match uploader p with
        | .ok url => .ok (some url)
        | .error msg =>
            .error (.gql ⟨"Employee photo upload failed.", .internalServerError, [msg]⟩)

/-- User.findOne on the login query: by verbatim username when the username
argument is truthy, otherwise by lower-cased email. -/
def findUser (users : List UserDoc) (username email : Option String) :
    Option UserDoc :=
  if optTruthy username then
    users.find? fun u => u.username = username.getD ""
  else
    users.find? fun u => u.email = strLower (email.getD "")

/-- The login resolver.  bcrypt.compare is the `compare` parameter;
process.env.JWT_SECRET is the `jwtSecret` parameter (falsy when unset or
empty). -/
def login (compare : String → String → Bool) (jwtSecret : Option String)
    (users : List UserDoc) (username email : Option String)
    (password : String) : Except JsError SignedToken :=
  match validationError (loginViolations password) with
  | some e => .error (.gql e)
  | none =>
      if !optTruthy username && !optTruthy email then
        .error (.gql ⟨"Either username or email is required for login.", .badUserInput, []⟩)
      else
        match findUser users username email with
        | none => .error (.gql ⟨"Invalid credentials.", .unauthenticated, []⟩)
        | some user =>
            if !compare password user.password then
              .error (.gql ⟨"Invalid credentials.", .unauthenticated, []⟩)
            else if !optTruthy jwtSecret then
              .error (.gql ⟨"JWT_SECRET is not configured.", .internalServerError, []⟩)
            else
              .ok ⟨user.id, user.username, user.email, jwtSecret.getD "", "1d"⟩

/-- The signup resolver.  bcrypt.hash is the `hash` parameter; the store's
verdict on User.create (the uniqueness-constraint backstop) is the
`createOutcome` parameter; `newId` is the id the store generates. -/
def signup (hash : String → String) (createOutcome : Except MongoError Unit)
    (users : List UserDoc) (newId : String)
    (username email password : String) : Except JsError UserDoc :=
  match validationError (signupViolations username email password) with
  | some e => .error (.gql e)
  | none =>
      if (users.find? fun u => u.email = strLower email).isSome then
        .error (.gql ⟨"Email already exists.", .badUserInput, []⟩)
      else
        match createOutcome with
        | .error e => .error (handleDuplicateEmailError (.store e))
        | .ok _ => .ok ⟨newId, username, strLower email, hash password⟩

/-- The addEmployee resolver.  The photo step runs only when the payload is
truthy; the store's verdict on Employee.create is `createOutcome`; `newId`
and `now` are the store-generated id and creation timestamp. -/
def addEmployee (uploader : String → Except String String)
    (createOutcome : Except MongoError Unit)
    (db : List EmployeeDoc) (newId : String) (now : Nat)
    (a : AddEmployeeArgs) : Except JsError EmployeeDoc :=
  match validationError (addEmployeeViolations a) with
  | some e => .error (.gql e)
  | none =>
      if (db.find? fun emp => emp.email = strLower a.email).isSome then
        .error (.gql ⟨"Email already exists.", .badUserInput, []⟩)
      else
        match
          (if optTruthy a.employee_photo then
            uploadEmployeePhoto uploader a.employee_photo
           else .ok none) with
        | .error e => .error e
        | .ok photoUrl =>
            match createOutcome with
            | .error e => .error (handleDuplicateEmailError (.store e))
            | .ok _ =>
                .ok ⟨newId, a.first_name, a.last_name, strLower a.email, a.gender,
                     a.designation, a.salary, a.date_of_joining, a.department,
                     photoUrl, now⟩

/-- findByIdAndUpdate's patch application: only supplied fields change. -/
def applyUpdates (e : EmployeeDoc) (u : UpdateEmployeeArgs) : EmployeeDoc :=
  { id := e.id
    first_name := u.first_name.getD e.first_name
    last_name := u.last_name.getD e.last_name
    email := u.email.getD e.email
    gender := match u.gender with | none => e.gender | some g => some g
    designation := u.designation.getD e.designation
    salary := u.salary.getD e.salary
    date_of_joining := u.date_of_joining.getD e.date_of_joining
    department := u.department.getD e.department
    employee_photo := match u.employee_photo with | none => e.employee_photo | some p => some p
    created_at := e.created_at }

/-- The updateEmployee resolver.  `updateOutcome` is the store's verdict on
the findByIdAndUpdate write (the duplicate-key backstop); when the write is
accepted, a missing record yields the NOT_FOUND GraphQLError, thrown inside
the try block and therefore routed through handleDuplicateEmailError. -/
def updateEmployee (updateOutcome : Except MongoError Unit)
    (db : List EmployeeDoc) (u : UpdateEmployeeArgs) :
    Except JsError EmployeeDoc :=
  match validationError (updateEmployeeViolations u) with
  | some e => .error (.gql e)
  | none =>
      if !isValidObjectId u.eid then
        .error (.gql ⟨"Invalid employee ID.", .badUserInput, []⟩)
      else
        if optTruthy u.email &&
           (db.find? fun emp =>
             emp.id ≠ u.eid && emp.email = strLower (u.email.getD "")).isSome then
          .error (.gql ⟨"Email already exists.", .badUserInput, []⟩)
        else
          let updates :=
            if optTruthy u.email then
              { u with email := some (strLower (u.email.getD "")) }
            else u
          match updateOutcome with
          | .error e => .error (handleDuplicateEmailError (.store e))
          | .ok _ =>
              match db.find? fun emp => emp.id = u.eid with
              | none =>
                  .error (handleDuplicateEmailError
                    (.gql ⟨"Employee not found.", .notFound, []⟩))
              | some emp => .ok (applyUpdates emp updates)

/-- The deleteEmployee resolver. -/
def deleteEmployee (db : List EmployeeDoc) (eid : String) :
    Except JsError String :=
  if !isValidObjectId eid then
    .error (.gql ⟨"Invalid employee ID.", .badUserInput, []⟩)
  else
    match db.find? fun emp => emp.id = eid with
    | none => .error (.gql ⟨"Employee not found.", .notFound, []⟩)
    | some _ => .ok "Employee deleted successfully."

/-- The getEmployeeById resolver. -/
def getEmployeeById (db : List EmployeeDoc) (eid : String) :
    Except JsError EmployeeDoc :=
  if !isValidObjectId eid then
    .error (.gql ⟨"Invalid employee ID.", .badUserInput, []⟩)
  else
    match db.find? fun emp => emp.id = eid with
    | none => .error (.gql ⟨"Employee not found.", .notFound, []⟩)
    | some emp => .ok emp

/-- Employee.find(...).sort on created_at descending. -/
def sortByCreatedDesc (l : List EmployeeDoc) : List EmployeeDoc :=
  l.insertionSort fun a b => b.created_at ≤ a.created_at

/-- The searchEmployee resolver: at least one truthy filter required; each
truthy filter becomes a case-insensitive RegExp on its field; results sorted
by creation time descending.  The regex application inherits `regexIMatch`'s
scope: the embedding is exact when each truthy filter satisfies
`modelledPattern` (the no-filter guard is exact for all inputs, since no
RegExp is constructed on that path). -/
def searchEmployee (db : List EmployeeDoc)
    (designation department : Option String) :
    Except JsError (List EmployeeDoc) :=
  if !optTruthy designation && !optTruthy department then
    .error (.gql ⟨"Provide at least one filter: designation or department.", .badUserInput, []⟩)
  else
    .ok (sortByCreatedDesc (db.filter fun e =>
      (if optTruthy designation then regexIMatch (designation.getD "") e.designation else true) &&
      (if optTruthy department then regexIMatch (department.getD "") e.department else true)))

/-- A concrete employee record used by witnesses and counterexamples. -/
def engEmp : EmployeeDoc :=
  ⟨"707070707070", "Ada", "L", "ada@x.com", none, "Engineer", 5000,
   "2024-01-15", "Eng", none, 0⟩

/-- Helper: a non-empty violation list is reported as a BAD_USER_INPUT error
headed by the first violation. -/
theorem validationError_of_ne_nil (l : List String) (h : l ≠ []) :
    ∃ m, validationError l = some ⟨m, .badUserInput, l⟩ := by
  cases l with
  | nil => exact absurd rfl h
  | cons m rest => exact ⟨m, rfl⟩

/-- Helper: every validation error carries code BAD_USER_INPUT. -/
theorem validationError_code (l : List String) (e : GError)
    (h : validationError l = some e) : e.code = .badUserInput := by
  cases l with
  | nil => simp [validationError] at h
  | cons m rest =>
      simp only [validationError] at h
      injection h with h2
      rw [← h2]

/-- Helper: sorting by creation time does not change membership. -/
theorem mem_sortByCreatedDesc (e : EmployeeDoc) (l : List EmployeeDoc) :
    e ∈ sortByCreatedDesc l ↔ e ∈ l :=
  (List.perm_insertionSort _ l).mem_iff

/-- C1: for every successful signup, the Account value exposed to the caller
(the record projected through the schema's Account view) is identical for
any two hash functions — hence it carries no information about, and in
particular does not include, the stored bcrypt hash. -/
theorem signup_returns_account_without_hash
    (hash₁ hash₂ : String → String) (co : Except MongoError Unit)
    (users : List UserDoc) (newId username email password : String) :
    (signup hash₁ co users newId username email password).map accountView
      = (signup hash₂ co users newId username email password).map accountView := by
  unfold signup
  cases validationError (signupViolations username email password) with
  | some e => rfl
  | none =>
      cases co with
      | error e => rfl
      | ok _ =>
          by_cases h : (users.find? fun u => u.email = strLower email).isSome
            <;> simp [h, Except.map, accountView]

/-- C6: getEmployeeById and deleteEmployee reject a structurally malformed
identifier as InvalidInput for every store state (the check precedes and is
independent of any lookup), and fail NotFound on a structurally valid
identifier matching no record. -/
theorem id_checks_and_not_found :
    (∀ (db : List EmployeeDoc) (eid : String), isValidObjectId eid = false →
      getEmployeeById db eid =
          .error (.gql ⟨"Invalid employee ID.", .badUserInput, []⟩)
        ∧ deleteEmployee db eid =
          .error (.gql ⟨"Invalid employee ID.", .badUserInput, []⟩))
    ∧ (∀ (db : List EmployeeDoc) (eid : String), isValidObjectId eid = true →
      (db.find? fun emp => emp.id = eid) = none →
      getEmployeeById db eid =
          .error (.gql ⟨"Employee not found.", .notFound, []⟩)
        ∧ deleteEmployee db eid =
          .error (.gql ⟨"Employee not found.", .notFound, []⟩)) := by
  constructor
  · intro db eid h
    constructor <;> simp [getEmployeeById, deleteEmployee, h]
  · intro db eid h hfind
    constructor <;> simp [getEmployeeById, deleteEmployee, h, hfind]

/-- Witness for C6: a malformed id ("abc") and a valid 24-hex id matching no
record, over the one-element store. -/
theorem id_checks_and_not_found_witness :
    (isValidObjectId "abc" = false
      ∧ getEmployeeById [engEmp] "abc" =
          .error (.gql ⟨"Invalid employee ID.", .badUserInput, []⟩)
      ∧ deleteEmployee [engEmp] "abc" =
          .error (.gql ⟨"Invalid employee ID.", .badUserInput, []⟩))
    ∧ (isValidObjectId "aaaaaaaaaaaaaaaaaaaaaaaa" = true
      ∧ getEmployeeById [engEmp] "aaaaaaaaaaaaaaaaaaaaaaaa" =
          .error (.gql ⟨"Employee not found.", .notFound, []⟩)
      ∧ deleteEmployee [engEmp] "aaaaaaaaaaaaaaaaaaaaaaaa" =
          .error (.gql ⟨"Employee not found.", .notFound, []⟩)) := by
  refine ⟨⟨by decide, ?_⟩, ⟨by decide, ?_⟩⟩
  · exact id_checks_and_not_found.1 [engEmp] "abc" (by decide)
  · exact id_checks_and_not_found.2 [engEmp] "aaaaaaaaaaaaaaaaaaaaaaaa"
      (by decide) (by rfl)

/-- C9: the photo upload step returns null for an absent (or empty, hence
JS-falsy) payload regardless of the external client — no external call can
influence the result; a failing external call is re-signaled as the typed
GraphQLError with the underlying message as detail; and every outcome is
either a success or that exact typed error, never a raw store-level
failure. -/
theorem upload_photo_typed_errors :
    (∀ uploader : String → Except String String,
      uploadEmployeePhoto uploader none = .ok none
        ∧ uploadEmployeePhoto uploader (some "") = .ok none)
    ∧ (∀ (uploader : String → Except String String) (s msg : String),
        s ≠ "" → uploader s = .error msg →
        uploadEmployeePhoto uploader (some s) =
          .error (.gql ⟨"Employee photo upload failed.", .internalServerError, [msg]⟩))
    ∧ (∀ (uploader : String → Except String String) (p : Option String),
        (∃ r, uploadEmployeePhoto uploader p = .ok r)
        ∨ (∃ msg, uploadEmployeePhoto uploader p =
            .error (.gql ⟨"Employee photo upload failed.", .internalServerError, [msg]⟩))) := by
  refine ⟨fun uploader => ⟨rfl, by simp [uploadEmployeePhoto]⟩, ?_, ?_⟩
  · intro uploader s msg hs hup
    simp [uploadEmployeePhoto, hs, hup]
  · intro uploader p
    match p with
    | none => exact .inl ⟨none, rfl⟩
    | some s =>
        by_cases hs : s = ""
        · exact .inl ⟨none, by simp [uploadEmployeePhoto, hs]⟩
        · cases hup : uploader s with
          | ok url => exact .inl ⟨some url, by simp [uploadEmployeePhoto, hs, hup]⟩
          | error msg => exact .inr ⟨msg, by simp [uploadEmployeePhoto, hs, hup]⟩

/-- Witness for C9: a concrete failing uploader is wrapped into the typed
error with its message as detail. -/
theorem upload_photo_typed_errors_witness :
    "x" ≠ ""
      ∧ uploadEmployeePhoto (fun _ => .error "boom") (some "x") =
        .error (.gql ⟨"Employee photo upload failed.", .internalServerError, ["boom"]⟩) :=
  ⟨by decide, upload_photo_typed_errors.2.1 (fun _ => .error "boom") "x" "boom" (by decide) rfl⟩

/-- Helper: whenever no account matches the lookup, or the matched account
fails password verification, login yields the one generic UNAUTHENTICATED
error, for every secret state. -/
theorem login_unauthenticated_aux (compare : String → String → Bool)
    (jwtSecret : Option String) (users : List UserDoc)
    (username email : Option String) (password : String)
    (hv : loginViolations password = [])
    (hid : (optTruthy username || optTruthy email) = true)
    (h : findUser users username email = none ∨
        ∃ u, findUser users username email = some u ∧
          compare password u.password = false) :
    login compare jwtSecret users username email password =
      .error (.gql ⟨"Invalid credentials.", .unauthenticated, []⟩) := by
  have hguard : (!optTruthy username && !optTruthy email) = false := by
    cases h1 : optTruthy username <;> cases h2 : optTruthy email <;> simp_all
  unfold login
  rw [hv]
  simp only [validationError, hguard, Bool.false_eq_true, if_false]
  cases h with
  | inl hn => simp [hn]
  | inr hx =>
      obtain ⟨u, hu, hc⟩ := hx
      simp [hu, hc]

/-- C4: with a valid password argument and at least one identifier supplied,
login fails UNAUTHENTICATED both when no account matches and when the
matched account fails verification, and the error value — message text
included — is literally the same in the two cases. -/
theorem login_uniform_invalid_credentials (compare : String → String → Bool)
    (jwtSecret : Option String) (users : List UserDoc)
    (username email : Option String) (password : String)
    (hv : loginViolations password = [])
    (hid : (optTruthy username || optTruthy email) = true) :
    (findUser users username email = none →
      login compare jwtSecret users username email password =
        .error (.gql ⟨"Invalid credentials.", .unauthenticated, []⟩))
    ∧ (∀ u, findUser users username email = some u →
        compare password u.password = false →
        login compare jwtSecret users username email password =
          .error (.gql ⟨"Invalid credentials.", .unauthenticated, []⟩)) :=
  ⟨fun hn => login_unauthenticated_aux compare jwtSecret users username email
      password hv hid (.inl hn),
   fun u hu hc => login_unauthenticated_aux compare jwtSecret users username
      email password hv hid (.inr ⟨u, hu, hc⟩)⟩

/-- Witness for C4: a one-user store; wrong password (verification fails)
and the generic error identical to the no-account case. -/
theorem login_uniform_invalid_credentials_witness :
    loginViolations "secret99" = []
    ∧ (optTruthy (some "u") || optTruthy none) = true
    ∧ login (fun _ _ => false) (some "s") [⟨"1", "u", "a@b.com", "H"⟩]
        (some "u") none "secret99" =
      .error (.gql ⟨"Invalid credentials.", .unauthenticated, []⟩)
    ∧ login (fun _ _ => false) (some "s") [] (some "u") none "secret99" =
      .error (.gql ⟨"Invalid credentials.", .unauthenticated, []⟩) :=
  ⟨rfl, rfl,
   (login_uniform_invalid_credentials (fun _ _ => false) (some "s")
      [⟨"1", "u", "a@b.com", "H"⟩] (some "u") none "secret99" rfl rfl).2
      ⟨"1", "u", "a@b.com", "H"⟩ rfl rfl,
   (login_uniform_invalid_credentials (fun _ _ => false) (some "s") []
      (some "u") none "secret99" rfl rfl).1 rfl⟩

/-- C10: credential verification precedes the signing-secret check: for any
secret state (in particular unset), a failed lookup or failed verification
yields UNAUTHENTICATED, and the missing-secret INTERNAL_SERVER_ERROR is
reachable only when an account matched and verification succeeded. -/
theorem login_credentials_checked_before_secret
    (compare : String → String → Bool) (users : List UserDoc)
    (username email : Option String) (password : String) :
    (∀ jwtSecret, loginViolations password = [] →
      (optTruthy username || optTruthy email) = true →
      (findUser users username email = none ∨
        ∃ u, findUser users username email = some u ∧
          compare password u.password = false) →
      login compare jwtSecret users username email password =
        .error (.gql ⟨"Invalid credentials.", .unauthenticated, []⟩))
    ∧ (∀ jwtSecret ds,
      login compare jwtSecret users username email password =
        .error (.gql ⟨"JWT_SECRET is not configured.", .internalServerError, ds⟩) →
      ∃ u, findUser users username email = some u ∧
        compare password u.password = true) := by
  constructor
  · intro jwtSecret hv hid h
    exact login_unauthenticated_aux compare jwtSecret users username email
      password hv hid h
  · intro jwtSecret ds h
    unfold login at h
    revert h
    cases hval : validationError (loginViolations password) with
    | some e =>
        intro h
        have hc := validationError_code _ _ hval
        simp only [Except.error.injEq, JsError.gql.injEq] at h
        rw [h] at hc
        exact absurd hc (by simp)
    | none =>
        intro h
        by_cases hg : (!optTruthy username && !optTruthy email) = true
        · rw [if_pos hg] at h
          simp at h
        · rw [if_neg hg] at h
          revert h
          cases hf : findUser users username email with
          | none => intro h; simp at h
          | some u =>
              intro h
              by_cases hcmp : compare password u.password = true
              · exact ⟨u, rfl, hcmp⟩
              · rw [Bool.not_eq_true] at hcmp
                simp [hcmp] at h

/-- Witness for C10: with the secret unset, a wrong password still yields
UNAUTHENTICATED; and the concrete run that does produce the missing-secret
error had a matching account with a verified password. -/
theorem login_credentials_checked_before_secret_witness :
    loginViolations "secret99" = []
    ∧ login (fun _ _ => false) none [⟨"1", "u", "a@b.com", "H"⟩]
        (some "u") none "secret99" =
      .error (.gql ⟨"Invalid credentials.", .unauthenticated, []⟩)
    ∧ (∃ u, findUser [⟨"1", "u", "a@b.com", "H"⟩] (some "u") none = some u ∧
        (fun _ _ : String => true) "secret99" u.password = true) :=
  ⟨rfl,
   (login_credentials_checked_before_secret (fun _ _ => false)
      [⟨"1", "u", "a@b.com", "H"⟩] (some "u") none "secret99").1 none rfl rfl
      (.inr ⟨⟨"1", "u", "a@b.com", "H"⟩, rfl, rfl⟩),
   (login_credentials_checked_before_secret (fun _ _ => true)
      [⟨"1", "u", "a@b.com", "H"⟩] (some "u") none "secret99").2 none [] rfl⟩

/-- C5: when the store's write raises a duplicate-key failure on the email
field (code 11000 with email in keyPattern — the race the pre-check missed),
signup, addEmployee and updateEmployee each fail with the same InvalidInput
"Email already exists." error that the pre-check produces, never a raw
storage error. -/
theorem duplicate_key_backstop_maps_to_invalid_input :
    (∀ (hash : String → String) (users : List UserDoc)
        (newId username email password : String) (e : MongoError),
      signupViolations username email password = [] →
      (users.find? fun u => u.email = strLower email) = none →
      e.code = 11000 → "email" ∈ e.keyPattern →
      signup hash (.error e) users newId username email password =
        .error (.gql ⟨"Email already exists.", .badUserInput, []⟩))
    ∧ (∀ (uploader : String → Except String String) (db : List EmployeeDoc)
        (newId : String) (now : Nat) (a : AddEmployeeArgs)
        (pu : Option String) (e : MongoError),
      addEmployeeViolations a = [] →
      (db.find? fun emp => emp.email = strLower a.email) = none →
      (if optTruthy a.employee_photo then
          uploadEmployeePhoto uploader a.employee_photo
        else .ok none) = .ok pu →
      e.code = 11000 → "email" ∈ e.keyPattern →
      addEmployee uploader (.error e) db newId now a =
        .error (.gql ⟨"Email already exists.", .badUserInput, []⟩))
    ∧ (∀ (db : List EmployeeDoc) (u : UpdateEmployeeArgs) (e : MongoError),
      updateEmployeeViolations u = [] →
      isValidObjectId u.eid = true →
      (optTruthy u.email &&
        (db.find? fun emp =>
          emp.id ≠ u.eid && emp.email = strLower (u.email.getD "")).isSome) = false →
      e.code = 11000 → "email" ∈ e.keyPattern →
      updateEmployee (.error e) db u =
        .error (.gql ⟨"Email already exists.", .badUserInput, []⟩)) := by
  refine ⟨?_, ?_, ?_⟩
  · intro hash users newId username email password e hv hpre hc hk
    unfold signup
    rw [hv]
    simp [validationError, hpre, handleDuplicateEmailError, hc, hk]
  · intro uploader db newId now a pu e hv hpre hup hc hk
    unfold addEmployee
    rw [hv]
    simp only [validationError, hpre, Option.isSome_none, Bool.false_eq_true,
      if_false, hup]
    simp [handleDuplicateEmailError, hc, hk]
  · intro db u e hv hid hpre hc hk
    unfold updateEmployee
    rw [hv]
    simp only [validationError, hid, Bool.not_true, Bool.false_eq_true,
      if_false, hpre]
    simp [handleDuplicateEmailError, hc, hk]

/-- Witness for C5: concrete duplicate-key failures on all three
operations. -/
theorem duplicate_key_backstop_maps_to_invalid_input_witness :
    signup (fun _ => "HH") (.error ⟨11000, ["email"]⟩) [] "id1"
        "user" "a@b.com" "secret99" =
      .error (.gql ⟨"Email already exists.", .badUserInput, []⟩)
    ∧ addEmployee (fun _ => .ok "u") (.error ⟨11000, ["email"]⟩) [] "id2" 5
        ⟨"A", "B", "a@b.com", none, "Dev", 1000, "2024-01-15", "Eng", none⟩ =
      .error (.gql ⟨"Email already exists.", .badUserInput, []⟩)
    ∧ updateEmployee (.error ⟨11000, ["email"]⟩) [engEmp]
        ⟨"121212121212", none, none, none, none, none, none, none, none, none⟩ =
      .error (.gql ⟨"Email already exists.", .badUserInput, []⟩) :=
  ⟨duplicate_key_backstop_maps_to_invalid_input.1 (fun _ => "HH") [] "id1"
      "user" "a@b.com" "secret99" ⟨11000, ["email"]⟩ rfl rfl rfl (by decide),
   duplicate_key_backstop_maps_to_invalid_input.2.1 (fun _ => .ok "u") []
      "id2" 5 ⟨"A", "B", "a@b.com", none, "Dev", 1000, "2024-01-15", "Eng", none⟩
      none ⟨11000, ["email"]⟩ rfl rfl rfl rfl (by decide),
   duplicate_key_backstop_maps_to_invalid_input.2.2 [engEmp]
      ⟨"121212121212", none, none, none, none, none, none, none, none, none⟩
      ⟨11000, ["email"]⟩ rfl rfl rfl rfl (by decide)⟩

/-- C7: an updateEmployee call that passes validation and the email
pre-check, whose store write is accepted (a missing record cannot raise a
duplicate-key failure), but whose structurally valid id matches no record,
fails NOT_FOUND; and the duplicate-key handler maps that NOT_FOUND
GraphQLError to itself, so the error is never remapped into the
duplicate-email InvalidInput error. -/
theorem update_not_found_passes_handler :
    (∀ (db : List EmployeeDoc) (u : UpdateEmployeeArgs),
      updateEmployeeViolations u = [] →
      isValidObjectId u.eid = true →
      (optTruthy u.email &&
        (db.find? fun emp =>
          emp.id ≠ u.eid && emp.email = strLower (u.email.getD "")).isSome) = false →
      (db.find? fun emp => emp.id = u.eid) = none →
      updateEmployee (.ok ()) db u =
        .error (.gql ⟨"Employee not found.", .notFound, []⟩))
    ∧ handleDuplicateEmailError (.gql ⟨"Employee not found.", .notFound, []⟩) =
        .gql ⟨"Employee not found.", .notFound, []⟩ := by
  constructor
  · intro db u hv hid hpre hfind
    unfold updateEmployee
    rw [hv]
    simp only [validationError, hid, Bool.not_true, Bool.false_eq_true,
      if_false, hpre, hfind]
    rfl
  · rfl

/-- Witness for C7: a valid 12-character id matching no record in a
one-element store. -/
theorem update_not_found_passes_handler_witness :
    isValidObjectId "121212121212" = true
    ∧ updateEmployee (.ok ()) [engEmp]
        ⟨"121212121212", none, none, none, none, none, none, none, none, none⟩ =
      .error (.gql ⟨"Employee not found.", .notFound, []⟩) :=
  ⟨by decide,
   update_not_found_passes_handler.1 [engEmp]
      ⟨"121212121212", none, none, none, none, none, none, none, none, none⟩
      rfl rfl rfl rfl⟩

/-- C8: when updateEmployee supplies an email, uniqueness is checked against
all employees except the record identified by eid: a case-insensitive
conflict with a different (store-normalized, hence lower-cased) record fails
InvalidInput, while re-supplying the target record's own email in any case
passes the pre-check, and the stored email is the lower-cased supplied
email. -/
theorem update_email_uniqueness_excludes_self :
    (∀ (uo : Except MongoError Unit) (db : List EmployeeDoc)
        (u : UpdateEmployeeArgs) (emp : EmployeeDoc),
      updateEmployeeViolations u = [] →
      isValidObjectId u.eid = true →
      optTruthy u.email = true →
      emp ∈ db → emp.id ≠ u.eid →
      strLower emp.email = emp.email →
      strLower emp.email = strLower (u.email.getD "") →
      updateEmployee uo db u =
        .error (.gql ⟨"Email already exists.", .badUserInput, []⟩))
    ∧ (∀ (db : List EmployeeDoc) (u : UpdateEmployeeArgs) (emp₀ : EmployeeDoc),
      updateEmployeeViolations u = [] →
      isValidObjectId u.eid = true →
      optTruthy u.email = true →
      (∀ emp ∈ db, emp.email = strLower (u.email.getD "") → emp.id = u.eid) →
      (db.find? fun emp => emp.id = u.eid) = some emp₀ →
      ∃ v, updateEmployee (.ok ()) db u = .ok v
        ∧ v.email = strLower (u.email.getD "")) := by
  constructor
  · intro uo db u emp hv hid htr hmem hne hlow hconf
    have hmail : emp.email = strLower (u.email.getD "") := hlow.symm.trans hconf
    have hsome : (db.find? fun e2 =>
        e2.id ≠ u.eid && e2.email = strLower (u.email.getD "")).isSome = true :=
      List.find?_isSome.2 ⟨emp, hmem, by simp [hne, hmail]⟩
    unfold updateEmployee
    rw [hv]
    simp only [validationError, hid, Bool.not_true, Bool.false_eq_true,
      if_false, htr, hsome, Bool.true_and, if_true]
  · intro db u emp₀ hv hid htr huniq hfind
    have hnone : (db.find? fun e2 =>
        e2.id ≠ u.eid && e2.email = strLower (u.email.getD "")) = none := by
      apply List.find?_eq_none.2
      intro x hx
      by_cases hmail : x.email = strLower (u.email.getD "")
      · simp [huniq x hx hmail]
      · simp [hmail]
    unfold updateEmployee
    rw [hv]
    simp only [validationError, hid, Bool.not_true, Bool.false_eq_true,
      if_false, htr, hnone, Option.isSome_none, Bool.and_false, if_true,
      hfind]
    exact ⟨_, rfl, by simp [applyUpdates]⟩

/-- Witness for C8: a conflict with a different record's email differing
only in case fails; re-supplying the record's own email upper-cased passes
and is stored lower-cased. -/
theorem update_email_uniqueness_excludes_self_witness :
    updateEmployee (.ok ()) [engEmp]
        ⟨"121212121212", none, none, some "ADA@X.com", none, none, none,
         none, none, none⟩ =
      .error (.gql ⟨"Email already exists.", .badUserInput, []⟩)
    ∧ (∃ v, updateEmployee (.ok ()) [engEmp]
        ⟨"707070707070", none, none, some "ADA@X.com", none, none, none,
         none, none, none⟩ = .ok v
        ∧ v.email = strLower ((some "ADA@X.com").getD "")) :=
  ⟨update_email_uniqueness_excludes_self.1 (.ok ()) [engEmp]
      ⟨"121212121212", none, none, some "ADA@X.com", none, none, none,
       none, none, none⟩ engEmp rfl (by decide) rfl (by simp [engEmp])
      (by decide) (by decide) (by decide),
   update_email_uniqueness_excludes_self.2 [engEmp]
      ⟨"707070707070", none, none, some "ADA@X.com", none, none, none,
       none, none, none⟩ engEmp rfl (by decide) rfl (by decide) rfl⟩

/-- C3: any salary strictly below 1000 makes addEmployee fail with a
BAD_USER_INPUT validation error, and makes updateEmployee fail likewise
when the salary is supplied; at exactly 1000, with the other inputs valid
(no violations, no duplicate email, no photo; for update: a valid id whose
record exists), both operations succeed. -/
theorem salary_minimum_threshold :
    (∀ (uploader : String → Except String String)
        (co : Except MongoError Unit) (db : List EmployeeDoc)
        (newId : String) (now : Nat) (a : AddEmployeeArgs),
      a.salary < 1000 →
      ∃ e, addEmployee uploader co db newId now a = .error (.gql e)
        ∧ e.code = .badUserInput)
    ∧ (∀ (uploader : String → Except String String) (db : List EmployeeDoc)
        (newId : String) (now : Nat) (a : AddEmployeeArgs),
      addEmployeeViolations a = [] →
      a.salary = 1000 →
      (db.find? fun emp => emp.email = strLower a.email) = none →
      a.employee_photo = none →
      ∃ v, addEmployee uploader (.ok ()) db newId now a = .ok v
        ∧ v.salary = 1000)
    ∧ (∀ (uo : Except MongoError Unit) (db : List EmployeeDoc)
        (u : UpdateEmployeeArgs) (s : ℚ),
      u.salary = some s → s < 1000 →
      ∃ e, updateEmployee uo db u = .error (.gql e)
        ∧ e.code = .badUserInput)
    ∧ (∀ (db : List EmployeeDoc) (u : UpdateEmployeeArgs)
        (emp₀ : EmployeeDoc),
      updateEmployeeViolations u = [] →
      u.salary = some 1000 →
      isValidObjectId u.eid = true →
      u.email = none →
      (db.find? fun emp => emp.id = u.eid) = some emp₀ →
      ∃ v, updateEmployee (.ok ()) db u = .ok v ∧ v.salary = 1000) := by
  refine ⟨?_, ?_, ?_, ?_⟩
  · intro uploader co db newId now a hsal
    have hmem : "Salary must be at least 1000." ∈ addEmployeeViolations a := by
      have hn : ¬ (1000 ≤ a.salary) := not_le.2 hsal
      simp [addEmployeeViolations, hn]
    obtain ⟨m, hm⟩ := validationError_of_ne_nil _ (List.ne_nil_of_mem hmem)
    refine ⟨⟨m, .badUserInput, addEmployeeViolations a⟩, ?_, rfl⟩
    unfold addEmployee
    rw [hm]
  · intro uploader db newId now a hv hsal hpre hphoto
    unfold addEmployee
    rw [hv]
    simp only [validationError, hpre, Option.isSome_none, Bool.false_eq_true,
      if_false, hphoto, optTruthy]
    exact ⟨_, rfl, hsal⟩
  · intro uo db u s hs hsal
    have hmem : "Salary must be at least 1000." ∈ updateEmployeeViolations u := by
      have hn : ¬ (1000 ≤ s) := not_le.2 hsal
      simp [updateEmployeeViolations, hs, hn]
    obtain ⟨m, hm⟩ := validationError_of_ne_nil _ (List.ne_nil_of_mem hmem)
    refine ⟨⟨m, .badUserInput, updateEmployeeViolations u⟩, ?_, rfl⟩
    unfold updateEmployee
    rw [hm]
  · intro db u emp₀ hv hsal hid hmail hfind
    unfold updateEmployee
    rw [hv]
    simp only [validationError, hid, Bool.not_true, Bool.false_eq_true,
      if_false, hmail, optTruthy, Bool.false_and, if_true, hfind]
    exact ⟨_, rfl, by simp [applyUpdates, hsal]⟩

/-- Witness for C3: salary 999 rejected and salary 1000 accepted, on both
operations. -/
theorem salary_minimum_threshold_witness :
    ((999 : ℚ) < 1000
      ∧ ∃ e, addEmployee (fun _ => .ok "u") (.ok ()) [] "id2" 5
          ⟨"A", "B", "a@b.com", none, "Dev", 999, "2024-01-15", "Eng", none⟩ =
            .error (.gql e) ∧ e.code = .badUserInput)
    ∧ (∃ v, addEmployee (fun _ => .ok "u") (.ok ()) [] "id2" 5
          ⟨"A", "B", "a@b.com", none, "Dev", 1000, "2024-01-15", "Eng", none⟩ =
            .ok v ∧ v.salary = 1000)
    ∧ (∃ e, updateEmployee (.ok ()) [engEmp]
          ⟨"707070707070", none, none, none, none, none, some 999, none,
           none, none⟩ = .error (.gql e) ∧ e.code = .badUserInput)
    ∧ (∃ v, updateEmployee (.ok ()) [engEmp]
          ⟨"707070707070", none, none, none, none, none, some 1000, none,
           none, none⟩ = .ok v ∧ v.salary = 1000) :=
  ⟨⟨by norm_num,
    salary_minimum_threshold.1 (fun _ => .ok "u") (.ok ()) [] "id2" 5
      ⟨"A", "B", "a@b.com", none, "Dev", 999, "2024-01-15", "Eng", none⟩
      (by norm_num)⟩,
   salary_minimum_threshold.2.1 (fun _ => .ok "u") [] "id2" 5
      ⟨"A", "B", "a@b.com", none, "Dev", 1000, "2024-01-15", "Eng", none⟩
      rfl rfl rfl rfl,
   salary_minimum_threshold.2.2.1 (.ok ()) [engEmp]
      ⟨"707070707070", none, none, none, none, none, some 999, none, none,
       none⟩ 999 rfl (by norm_num),
   salary_minimum_threshold.2.2.2 [engEmp]
      ⟨"707070707070", none, none, none, none, none, some 1000, none, none,
       none⟩ engEmp rfl rfl (by decide) rfl rfl⟩

/-- Counterexample for C2: the search filter is compiled into a regular
expression, not matched as a literal substring.  With the one-employee store
whose department is "Eng", the department filter "." returns the employee
although "." does not occur case-insensitively as a substring of "Eng"; and
a supplied empty-string filter is JS-falsy, so supplying only
department = "" is rejected as if no filter had been supplied. -/
theorem searchEmployee_substring_claim_false :
    searchEmployee [engEmp] none (some ".") = .ok [engEmp]
    ∧ specSubstrCI "." engEmp.department = false
    ∧ searchEmployee [engEmp] (some "") none =
        .error (.gql ⟨"Provide at least one filter: designation or department.", .badUserInput, []⟩) :=
  ⟨rfl, rfl, rfl⟩

/-- C2 (amended): searchEmployee fails InvalidInput when neither filter is
truthy (absent or empty string — a supplied empty string counts as absent),
for all filter values; and for filters within the modelled regex fragment
(ASCII ordinary characters and the `.` wildcard — always-valid patterns
with no further metacharacters), an employee is returned iff each truthy
filter, interpreted as a case-insensitive regular-expression pattern
matched anywhere in the corresponding field, matches — with both required
when both are truthy (logical AND).  Filters outside the fragment follow
the program's full regex semantics (invalid ones raise a SyntaxError) and
are outside this theorem's domain. -/
theorem searchEmployee_regex_filter_semantics (db : List EmployeeDoc)
    (designation department : Option String) :
    ((optTruthy designation || optTruthy department) = false →
      searchEmployee db designation department =
        .error (.gql ⟨"Provide at least one filter: designation or department.", .badUserInput, []⟩))
    ∧ (modelledPattern (designation.getD "") = true →
      modelledPattern (department.getD "") = true →
      (optTruthy designation || optTruthy department) = true →
      ∃ l, searchEmployee db designation department = .ok l ∧
        ∀ e, e ∈ l ↔ e ∈ db
          ∧ (optTruthy designation = true →
              regexIMatch (designation.getD "") e.designation = true)
          ∧ (optTruthy department = true →
              regexIMatch (department.getD "") e.department = true)) := by
  constructor
  · intro h
    have h1 : optTruthy designation = false := by
      cases hx : optTruthy designation <;> simp_all
    have h2 : optTruthy department = false := by
      cases hx : optTruthy department <;> simp_all
    simp [searchEmployee, h1, h2]
  · intro hmd hmp h
    have hg : (!optTruthy designation && !optTruthy department) = false := by
      cases hx : optTruthy designation <;> cases hy : optTruthy department
        <;> simp_all
    unfold searchEmployee
    rw [hg]
    simp only [Bool.false_eq_true, if_false]
    refine ⟨_, rfl, ?_⟩
    intro e
    rw [mem_sortByCreatedDesc, List.mem_filter]
    cases hd : optTruthy designation <;> cases hp : optTruthy department
      <;> simp_all

/-- Witness for C2's amended theorem: with only the department filter "eng"
supplied — a filter inside the modelled fragment — membership in the result
is regex matching of the department. -/
theorem searchEmployee_regex_filter_semantics_witness :
    modelledPattern "eng" = true
    ∧ (optTruthy none || optTruthy (some "eng")) = true
    ∧ ∃ l, searchEmployee [engEmp] none (some "eng") = .ok l ∧
        ∀ e, e ∈ l ↔ e ∈ [engEmp]
          ∧ (optTruthy (none : Option String) = true →
              regexIMatch ((none : Option String).getD "") e.designation = true)
          ∧ (optTruthy (some "eng") = true →
              regexIMatch ((some "eng").getD "") e.department = true) :=
  ⟨rfl, rfl,
   (searchEmployee_regex_filter_semantics [engEmp] none (some "eng")).2
      rfl rfl rfl⟩
